import Mathlib

/-!
Verification of the kernel argument-binding engine of OpenCLOn12
(src/kernel.cpp): name-based kernel resolution across devices,
`Kernel::SetArg`, the clone constructor, `DeclsFromMetadata`, and the
`CL_KERNEL_LOCAL_MEM_SIZE` computation, shallowly embedded in Lean.
Machine integers are modelled as `Nat` with explicit reduction modulo
`2^32` / `2^64` where the C++ performs fixed-width arithmetic; accesses
the C++ leaves undefined (out-of-bounds indexing, null dereference,
`std::get` on the wrong variant alternative) are modelled by `Option`
results, `none` standing for undefined behavior.
-/

namespace OCL12

/-! OpenCL constants, from the OpenCL headers used by kernel.cpp. -/

def CL_SUCCESS : Int := 0

def CL_OUT_OF_RESOURCES : Int := -5

def CL_INVALID_PROGRAM_EXECUTABLE : Int := -45

def CL_INVALID_KERNEL_NAME : Int := -46

def CL_INVALID_KERNEL_DEFINITION : Int := -47

def CL_INVALID_ARG_INDEX : Int := -49

def CL_INVALID_ARG_VALUE : Int := -50

def CL_INVALID_ARG_SIZE : Int := -51

def CL_BUILD_SUCCESS : Int := 0

def CL_PROGRAM_BINARY_TYPE_EXECUTABLE : Nat := 4

def CL_MEM_WRITE_ONLY : Nat := 2

def CL_MEM_READ_ONLY : Nat := 4

def CL_MEM_OBJECT_BUFFER : Nat := 0x10F0

def CL_MEM_OBJECT_IMAGE2D : Nat := 0x10F1

def CL_MEM_OBJECT_IMAGE3D : Nat := 0x10F2

def CL_MEM_OBJECT_IMAGE2D_ARRAY : Nat := 0x10F3

def CL_MEM_OBJECT_IMAGE1D : Nat := 0x10F4

def CL_MEM_OBJECT_IMAGE1D_ARRAY : Nat := 0x10F5

def CL_MEM_OBJECT_IMAGE1D_BUFFER : Nat := 0x10F6

def CL_SNORM_INT8 : Nat := 0x10D0

def CL_R : Nat := 0x10B0

def CL_ADDRESS_NONE : Nat := 0x1130

def CL_FILTER_NEAREST : Nat := 0x1140

def CL_FILTER_LINEAR : Nat := 0x1141

/-- On the 64-bit target, `sizeof(cl_mem)` (a pointer) is 8 bytes. -/
def sizeof_cl_mem : Nat := 8

/-- On the 64-bit target, `sizeof(cl_sampler)` (a pointer) is 8 bytes. -/
def sizeof_cl_sampler : Nat := 8

/-! Fixed-width arithmetic helpers. -/

/-- Reduction to `cl_uint` / `UINT` (32-bit unsigned) range. -/
def u32 (n : Nat) : Nat := n % 4294967296

/-- Reduction to `size_t` / `uint64_t` (64-bit unsigned) range. -/
def u64m (n : Nat) : Nat := n % 18446744073709551616

/-- Unsigned 32-bit subtraction with wraparound, as C computes `a - b`
on `cl_uint` operands. -/
def sub32 (a b : Nat) : Nat := (u32 a + 4294967296 - u32 b) % 4294967296

/-! Argument metadata (`ProgramBinary::Kernel::Arg` and
`CompiledDxil::Metadata::Arg`). -/

/-- Address space of a kernel argument
(`ProgramBinary::Kernel::Arg::AddressSpace`). -/
inductive AddressSpace
  | Global
  | Constant
  | Private
  | Local
deriving DecidableEq, Repr

/-- One entry of `program_kernel_info.args`: source-level signature data
of a declared kernel argument (`ProgramBinary::Kernel::Arg`). -/
structure ArgInfo where
  type_name : String
  name : String
  address_qualifier : AddressSpace
  readable : Bool
  writable : Bool
  is_const : Bool
  is_restrict : Bool
  is_volatile : Bool
deriving DecidableEq, Repr

/-- The kind-specific payload of `CompiledDxil::Metadata::Arg::properties`
(a `std::variant`). Images carry their list of resource slot ids
(`buffer_ids`, of length `num_buffer_ids`); plain buffers one slot id;
samplers one sampler slot id; local arguments no slot; scalars none. -/
inductive ArgProperties
  | image (buffer_ids : List Nat)
  | memory (buffer_id : Nat)
  | sampler (sampler_id : Nat)
  | localArg
  | scalar
deriving DecidableEq, Repr

/-- One entry of `CompiledDxil::Metadata::args`: byte offset and size in
the kernel-inputs constant buffer, plus the kind-specific payload. -/
structure ArgMeta where
  offset : Nat
  size : Nat
  properties : ArgProperties
deriving DecidableEq, Repr

/-- The parts of `CompiledDxil::Metadata` that kernel.cpp reads.
`args` and `program_kernel_info_args` are parallel lists indexed by the
declared argument position. -/
structure Metadata where
  kernel_inputs_cbv_id : Nat
  work_properties_cbv_id : Nat
  num_samplers : Nat
  num_srvs : Nat
  num_uavs : Nat
  kernel_inputs_buf_size : Nat
  local_mem_size : Nat
  args : List ArgMeta
  program_kernel_info_args : List ArgInfo
deriving DecidableEq, Repr

/-- The parts of a `Resource` (cl_mem) that SetArg reads: image kind tag,
memory flags, and the pixel-format descriptor fields. -/
structure Resource where
  image_type : Nat
  flags : Nat
  format_channel_order : Nat
  format_channel_data_type : Nat
deriving DecidableEq, Repr

/-- A sampler descriptor (`Sampler::Desc`). -/
structure SamplerDesc where
  NormalizedCoords : Nat
  AddressingMode : Nat
  FilterMode : Nat
deriving DecidableEq, Repr

/-- A `Sampler` object as SetArg reads it. -/
structure Sampler where
  m_Desc : SamplerDesc
deriving DecidableEq, Repr

/-- `CompiledDxil::Configuration::Arg::Sampler`: the compiler-facing
sampler configuration snapshot. -/
structure SamplerConfig where
  normalizedCoords : Nat
  addressingMode : Nat
  linearFiltering : Nat
deriving DecidableEq, Repr

/-- One entry of `m_ArgMetadataToCompiler[i].config`, a `std::variant`:
a local-memory size for Local arguments, a sampler snapshot for
sampler-typed Private arguments, or neither. -/
inductive ArgConfig
  | localCfg (size : Nat)
  | samplerCfg (cfg : SamplerConfig)
  | otherCfg
deriving DecidableEq, Repr

/-- What the caller's `arg_value` pointer points at: a `cl_mem` handle
(possibly null), a `cl_sampler` handle (possibly null), or raw scalar
bytes. The pointer itself being null is `Option.none` at the use site. -/
inductive ArgValue
  | memVal (mem : Option Resource)
  | sampVal (samp : Option Sampler)
  | bytes (bs : List Nat)
deriving DecidableEq, Repr

/-- The mutable per-instance state of a `Kernel` object: UAV and SRV slot
arrays, sampler slot array, per-argument compiler configuration, and the
kernel-inputs constant-buffer byte blob (`m_KernelArgsCbData`). -/
structure KernelState where
  m_UAVs : List (Option Resource)
  m_SRVs : List (Option Resource)
  m_Samplers : List (Option Sampler)
  m_ArgMetadataToCompiler : List ArgConfig
  m_KernelArgsCbData : List Nat
deriving DecidableEq, Repr

/-- The immutable part of a kernel instance: its compiled metadata
(`m_Dxil.GetMetadata()`). -/
structure Kernel where
  metadata : Metadata
deriving DecidableEq, Repr

/-! Byte-blob primitives. The blob is a list of bytes; multi-byte values
are stored little-endian as on the x86/x64 targets of this code. -/

/-- Overwrite `src.length` bytes of `blob` starting at `off`. -/
def writeBytes (blob : List Nat) (off : Nat) (src : List Nat) : List Nat :=
  blob.take off ++ src ++ blob.drop (off + src.length)

/-- Little-endian bytes of a 32-bit value. -/
def u32Bytes (v : Nat) : List Nat :=
  [v % 256, v / 256 % 256, v / 65536 % 256, v / 16777216 % 256]

/-- Little-endian bytes of a 64-bit value. -/
def u64Bytes (v : Nat) : List Nat :=
  u32Bytes (u32 v) ++ u32Bytes (v / 4294967296 % 4294967296)

/-- Read a little-endian 64-bit value at byte offset `off`. -/
def readU64 (blob : List Nat) (off : Nat) : Nat :=
  blob.getD off 0 +
  blob.getD (off + 1) 0 * 256 +
  blob.getD (off + 2) 0 * 65536 +
  blob.getD (off + 3) 0 * 16777216 +
  blob.getD (off + 4) 0 * 4294967296 +
  blob.getD (off + 5) 0 * 1099511627776 +
  blob.getD (off + 6) 0 * 281474976710656 +
  blob.getD (off + 7) 0 * 72057594037927936

/-! Image-type classification and declaration building
(`MemObjectTypeFromName`, `ResourceDimensionFromMemObjectType`,
`DeclsFromMetadata`). -/

/-- Map an argument type-name string to a `cl_mem_object_type` image tag,
or 0 for non-image types (kernel.cpp `MemObjectTypeFromName`). -/
def MemObjectTypeFromName (name : String) : Nat :=
  if name = "image1d_buffer_t" then CL_MEM_OBJECT_IMAGE1D_BUFFER
  else if name = "image1d_t" then CL_MEM_OBJECT_IMAGE1D
  else if name = "image1d_array_t" then CL_MEM_OBJECT_IMAGE1D_ARRAY
  else if name = "image2d_t" then CL_MEM_OBJECT_IMAGE2D
  else if name = "image2d_array_t" then CL_MEM_OBJECT_IMAGE2D_ARRAY
  else if name = "image3d_t" then CL_MEM_OBJECT_IMAGE3D
  else 0

/-- `D3D12TranslationLayer::RESOURCE_DIMENSION` values used here. -/
inductive ResourceDimension
  | UNKNOWN
  | BUFFER
  | TEXTURE1D
  | TEXTURE1DARRAY
  | TEXTURE2D
  | TEXTURE2DARRAY
  | TEXTURE3D
deriving DecidableEq, Repr

/-- kernel.cpp `ResourceDimensionFromMemObjectType`. -/
def ResourceDimensionFromMemObjectType (type : Nat) : ResourceDimension :=
  if type = CL_MEM_OBJECT_IMAGE1D then ResourceDimension.TEXTURE1D
  else if type = CL_MEM_OBJECT_IMAGE1D_ARRAY then ResourceDimension.TEXTURE1DARRAY
  else if type = CL_MEM_OBJECT_IMAGE1D_BUFFER then ResourceDimension.BUFFER
  else if type = CL_MEM_OBJECT_IMAGE2D then ResourceDimension.TEXTURE2D
  else if type = CL_MEM_OBJECT_IMAGE2D_ARRAY then ResourceDimension.TEXTURE2DARRAY
  else if type = CL_MEM_OBJECT_IMAGE3D then ResourceDimension.TEXTURE3D
  else ResourceDimension.UNKNOWN

/-- `D3D12TranslationLayer::SShaderDecls`, the fields kernel.cpp fills. -/
structure SShaderDecls where
  m_NumCBs : Nat
  m_NumSamplers : Nat
  m_ResourceDecls : List ResourceDimension
  m_UAVDecls : List ResourceDimension
deriving DecidableEq, Repr

/-- The declaration loop of `DeclsFromMetadata`: walks the parallel
argument lists and writes dimension tags into the SRV / UAV declaration
vectors (`decls.m_ResourceDecls` / `decls.m_UAVDecls`). -/
def declLoop : List ArgMeta → List ArgInfo → List ResourceDimension →
    List ResourceDimension → List ResourceDimension × List ResourceDimension
  | [], _, srvs, uavs => (srvs, uavs)
  | _, [], srvs, uavs => (srvs, uavs)
  | arg_meta :: metas, arg_info :: infos, srvs, uavs =>
    if arg_info.address_qualifier = AddressSpace.Global ∨
       arg_info.address_qualifier = AddressSpace.Constant then
      let imageType := MemObjectTypeFromName arg_info.type_name
      if imageType ≠ 0 then
        let dim := ResourceDimensionFromMemObjectType imageType
        match arg_meta.properties with
        | ArgProperties.image ids =>
          if arg_info.writable then
            declLoop metas infos srvs (ids.foldl (fun acc j => acc.set j dim) uavs)
          else
            declLoop metas infos (ids.foldl (fun acc j => acc.set j dim) srvs) uavs
        | _ => declLoop metas infos srvs uavs
      else
        match arg_meta.properties with
        | ArgProperties.memory bid =>
          declLoop metas infos srvs (uavs.set bid ResourceDimension.BUFFER)
        | _ => declLoop metas infos srvs uavs
    else
      declLoop metas infos srvs uavs

/-- kernel.cpp `DeclsFromMetadata`: derives the binding-table shape from
compiled metadata. The `+ 1` additions are performed on `cl_uint`. -/
def DeclsFromMetadata (metadata : Metadata) : SShaderDecls :=
  let KernelArgCBIndex := u32 metadata.kernel_inputs_cbv_id
  let WorkPropertiesCBIndex := u32 metadata.work_properties_cbv_id
  let srvInit := List.replicate metadata.num_srvs ResourceDimension.UNKNOWN
  let uavInit := List.replicate metadata.num_uavs ResourceDimension.UNKNOWN
  let loopRes := declLoop metadata.args metadata.program_kernel_info_args srvInit uavInit
  { m_NumCBs := max (u32 (KernelArgCBIndex + 1)) (u32 (WorkPropertiesCBIndex + 1))
    m_NumSamplers := metadata.num_samplers
    m_ResourceDecls := loopRes.1
    m_UAVDecls := loopRes.2 }

/-- kernel.cpp `SpirvAddressingModeFromCL`: re-bias a CL addressing mode
to the compiler-internal zero-based encoding (`cl_uint` subtraction). -/
def SpirvAddressingModeFromCL (mode : Nat) : Nat := sub32 mode CL_ADDRESS_NONE

/-! The SetArg protocol (`Kernel::SetArg`). -/

/-- Tests `resource && (resource->m_Flags & flag)`. -/
def resourceHasFlag (resource : Option Resource) (flag : Nat) : Bool :=
  match resource with
  | some r => Nat.land r.flags flag ≠ 0
  | none => false

/-- Set every listed slot of a slot array to `resource`
(`m_UAVs[ids[i]] = resource` in a loop); `none` when a slot id is out of
bounds of the array (undefined behavior in the C++). -/
def setSlots (slots : List (Option Resource)) (ids : List Nat)
    (resource : Option Resource) : Option (List (Option Resource)) :=
  if ids.all (fun i => i < slots.length) then
    some (ids.foldl (fun acc i => acc.set i resource) slots)
  else none

/-- Store the image format header into the blob at `off`: zeroed when no
resource is bound, else the bound resource's channel order and channel
data type each re-biased by unsigned subtraction of the range base
(`*ImageFormatInKernelArgs = ...` in kernel.cpp); `none` when the write
would fall outside the blob. -/
def writeImageFormatBlob (blob : List Nat) (off : Nat)
    (resource : Option Resource) : Option (List Nat) :=
  if off + 8 ≤ blob.length then
    match resource with
    | none => some (writeBytes blob off (u32Bytes 0 ++ u32Bytes 0))
    | some r => some (writeBytes blob off
        (u32Bytes (sub32 r.format_channel_order CL_R) ++
         u32Bytes (sub32 r.format_channel_data_type CL_SNORM_INT8)))
  else none

/-- The Global/Constant branch of `Kernel::SetArg`. -/
def setArgGlobalConstant (st : KernelState) (arg_meta : ArgMeta)
    (arg_info : ArgInfo) (arg_size : Nat) (arg_value : Option ArgValue) :
    Option (Int × KernelState) :=
  if arg_size ≠ sizeof_cl_mem then
    some (CL_INVALID_ARG_SIZE, st)
  else
    let imageType := MemObjectTypeFromName arg_info.type_name
    match (match arg_value with
           | none => some none
           | some (ArgValue.memVal mem) => some mem
           | some _ => none : Option (Option Resource)) with
    | none => none
    | some resource =>
      if imageType ≠ 0 then
        match arg_meta.properties with
        | ArgProperties.image buffer_ids =>
          let validImageType : Bool := match resource with
            | some r => r.image_type == imageType
            | none => true
          if !validImageType then
            some (CL_INVALID_ARG_VALUE, st)
          else if arg_info.writable then
            if resourceHasFlag resource CL_MEM_READ_ONLY then
              some (CL_INVALID_ARG_VALUE, st)
            else if arg_info.readable ∧ resourceHasFlag resource CL_MEM_WRITE_ONLY then
              some (CL_INVALID_ARG_VALUE, st)
            else
              match setSlots st.m_UAVs buffer_ids resource with
              | none => none
              | some uavs =>
                match writeImageFormatBlob st.m_KernelArgsCbData arg_meta.offset resource with
                | none => none
                | some blob => some (CL_SUCCESS,
                    { st with m_UAVs := uavs, m_KernelArgsCbData := blob })
          else
            if resourceHasFlag resource CL_MEM_WRITE_ONLY then
              some (CL_INVALID_ARG_VALUE, st)
            else
              match setSlots st.m_SRVs buffer_ids resource with
              | none => none
              | some srvs =>
                match writeImageFormatBlob st.m_KernelArgsCbData arg_meta.offset resource with
                | none => none
                | some blob => some (CL_SUCCESS,
                    { st with m_SRVs := srvs, m_KernelArgsCbData := blob })
        | _ => none
      else
        if (match resource with
            | some r => r.image_type != CL_MEM_OBJECT_BUFFER
            | none => false : Bool) then
          some (CL_INVALID_ARG_VALUE, st)
        else
          match arg_meta.properties with
          | ArgProperties.memory buffer_id =>
            if buffer_id < st.m_UAVs.length ∧
               arg_meta.offset + 8 ≤ st.m_KernelArgsCbData.length then
              let packed := match resource with
                | some _ => u32 buffer_id * 4294967296
                | none => 18446744073709551615
              some (CL_SUCCESS,
                { st with
                  m_UAVs := st.m_UAVs.set buffer_id resource
                  m_KernelArgsCbData :=
                    writeBytes st.m_KernelArgsCbData arg_meta.offset (u64Bytes packed) })
            else none
          | _ => none

/-- The Private branch of `Kernel::SetArg`: sampler-typed arguments get a
sampler binding and a compiler-config snapshot, all other Private
arguments are scalars copied byte-wise into the blob. -/
def setArgPrivate (st : KernelState) (arg_index : Nat) (arg_meta : ArgMeta)
    (arg_info : ArgInfo) (arg_size : Nat) (arg_value : Option ArgValue) :
    Option (Int × KernelState) :=
  if arg_info.type_name = "sampler_t" then
    if arg_size ≠ sizeof_cl_sampler then
      some (CL_INVALID_ARG_SIZE, st)
    else
      match (match arg_value with
             | none => some none
             | some (ArgValue.sampVal samp) => some samp
             | some _ => none : Option (Option Sampler)) with
      | none => none
      | some sampler =>
        match arg_meta.properties, st.m_ArgMetadataToCompiler.get? arg_index with
        | ArgProperties.sampler sampler_id, some (ArgConfig.samplerCfg _) =>
          if sampler_id < st.m_Samplers.length then
            let cfg : SamplerConfig :=
              { normalizedCoords := match sampler with
                  | some s => s.m_Desc.NormalizedCoords
                  | none => 1
                addressingMode := match sampler with
                  | some s => SpirvAddressingModeFromCL s.m_Desc.AddressingMode
                  | none => 0
                linearFiltering := match sampler with
                  | some s => if s.m_Desc.FilterMode = CL_FILTER_LINEAR then 1 else 0
                  | none => 0 }
            some (CL_SUCCESS,
              { st with
                m_Samplers := st.m_Samplers.set sampler_id sampler
                m_ArgMetadataToCompiler :=
                  st.m_ArgMetadataToCompiler.set arg_index (ArgConfig.samplerCfg cfg) })
          else none
        | _, _ => none
  else
    if arg_size ≠ arg_meta.size then
      some (CL_INVALID_ARG_SIZE, st)
    else
      match arg_value with
      | none => none
      | some (ArgValue.bytes bs) =>
        if arg_size ≤ bs.length ∧
           arg_meta.offset + arg_size ≤ st.m_KernelArgsCbData.length then
          some (CL_SUCCESS,
            { st with m_KernelArgsCbData :=
                writeBytes st.m_KernelArgsCbData arg_meta.offset (bs.take arg_size) })
        else none
      | some _ => none

/-- The Local branch of `Kernel::SetArg`: the recorded size is the
`size_t` argument truncated by the `(cl_uint)` cast. -/
def setArgLocal (st : KernelState) (arg_index : Nat) (arg_size : Nat)
    (arg_value : Option ArgValue) : Option (Int × KernelState) :=
  if arg_size = 0 then
    some (CL_INVALID_ARG_SIZE, st)
  else if arg_value ≠ none then
    some (CL_INVALID_ARG_VALUE, st)
  else
    match st.m_ArgMetadataToCompiler.get? arg_index with
    | some (ArgConfig.localCfg _) =>
      some (CL_SUCCESS,
        { st with m_ArgMetadataToCompiler :=
            st.m_ArgMetadataToCompiler.set arg_index (ArgConfig.localCfg (u32 arg_size)) })
    | _ => none

/-- `Kernel::SetArg` (kernel.cpp lines 348-489). Note the bound check is
`arg_index > args.size()`, as in the source; at `arg_index = args.size()`
the subsequent metadata indexing is out of bounds, yielding `none`. -/
def SetArg (k : Kernel) (st : KernelState) (arg_index : Nat) (arg_size : Nat)
    (arg_value : Option ArgValue) : Option (Int × KernelState) :=
  if arg_index > k.metadata.args.length then
    some (CL_INVALID_ARG_INDEX, st)
  else
    match k.metadata.args.get? arg_index,
          k.metadata.program_kernel_info_args.get? arg_index with
    | some arg_meta, some arg_info =>
      match arg_info.address_qualifier with
      | AddressSpace.Global => setArgGlobalConstant st arg_meta arg_info arg_size arg_value
      | AddressSpace.Constant => setArgGlobalConstant st arg_meta arg_info arg_size arg_value
      | AddressSpace.Private => setArgPrivate st arg_index arg_meta arg_info arg_size arg_value
      | AddressSpace.Local => setArgLocal st arg_index arg_size arg_value
    | _, _ => none

/-! Clone (`Kernel::Kernel(Kernel const&)`). The copy constructor copies
each mutable container (`m_UAVs`, `m_SRVs`, `m_Samplers`,
`m_ArgMetadataToCompiler`, `m_KernelArgsCbData`) by value, so the clone
has its own storage. Instances live in a heap of kernel-state objects
addressed by index; cloning allocates a fresh address. -/

/-- Field-by-field copy performed by the copy constructor's initializer
list for the mutable state. -/
def copyKernelState (other : KernelState) : KernelState :=
  { m_UAVs := other.m_UAVs
    m_SRVs := other.m_SRVs
    m_Samplers := other.m_Samplers
    m_ArgMetadataToCompiler := other.m_ArgMetadataToCompiler
    m_KernelArgsCbData := other.m_KernelArgsCbData }

/-- A heap of kernel instances; an address is an index into the list. -/
structure KernelHeap where
  objects : List KernelState
deriving DecidableEq, Repr

/-- `clCloneKernel`: allocate a new kernel instance whose mutable state is
a value copy of the source's; returns the new heap and the clone's
address. -/
def cloneKernelObj (h : KernelHeap) (src : Nat) : Option (KernelHeap × Nat) :=
  match h.objects.get? src with
  | none => none
  | some st => some (⟨h.objects ++ [copyKernelState st]⟩, h.objects.length)

/-- `clSetKernelArg` dispatched to the instance at `addr`. -/
def setArgOnObj (k : Kernel) (h : KernelHeap) (addr : Nat) (arg_index : Nat)
    (arg_size : Nat) (arg_value : Option ArgValue) : Option (Int × KernelHeap) :=
  match h.objects.get? addr with
  | none => none
  | some st =>
    match SetArg k st arg_index arg_size arg_value with
    | none => none
    | some (r, st2) => some (r, ⟨h.objects.set addr st2⟩)

/-! Name-based kernel resolution (`clCreateKernel`, lines 12-92). -/

/-- The parts of a `CompiledDxil` object the resolution code reads, plus
the rest of its metadata (distinct devices generally hold distinct
compiled artifacts even for identical signatures). -/
structure CompiledDxil where
  metadata : Metadata
deriving DecidableEq, Repr

/-- One entry of `BuildData::m_Kernels`: the per-device compiled kernel,
whose `m_GenericDxil` may be null when compilation failed. -/
structure KernelEntry where
  m_GenericDxil : Option CompiledDxil
deriving DecidableEq, Repr

/-- The per-device build data the resolution loop reads. -/
structure BuildData where
  m_BuildStatus : Int
  m_BinaryType : Nat
  m_Kernels : List (String × KernelEntry)
deriving DecidableEq, Repr

/-- `m_Kernels.find(kernel_name)`. -/
def lookupKernel (name : String) : List (String × KernelEntry) → Option KernelEntry
  | [] => none
  | (n, e) :: rest => if n = name then some e else lookupKernel name rest

/-- Negation of the per-argument mismatch test of clCreateKernel
(lines 55-62): all eight compared fields agree. -/
def argInfoMatches (a b : ArgInfo) : Bool :=
  a.type_name == b.type_name &&
  a.name == b.name &&
  a.address_qualifier == b.address_qualifier &&
  a.readable == b.readable &&
  a.writable == b.writable &&
  a.is_const == b.is_const &&
  a.is_restrict == b.is_restrict &&
  a.is_volatile == b.is_volatile

/-- Pairwise comparison of two equal-length argument lists. -/
def argsAllMatch : List ArgInfo → List ArgInfo → Bool
  | [], [] => true
  | a :: as, b :: bs => argInfoMatches a b && argsAllMatch as bs
  | _, _ => false

/-- The signature comparison of clCreateKernel: argument-count check then
per-argument field comparison; `some code` is the reported error. -/
def compareKernelArgs (first second : List ArgInfo) : Option Int :=
  if first.length ≠ second.length then
    some CL_INVALID_KERNEL_DEFINITION
  else if argsAllMatch first second then
    none
  else
    some CL_INVALID_KERNEL_DEFINITION

/-- Outcome of name-based kernel resolution. -/
inductive ResolveResult
  | err (code : Int)
  | success (dxil : CompiledDxil)
deriving DecidableEq, Repr

/-- The device loop of clCreateKernel. `kernel` is the `CompiledDxil*`
accumulator, `cp` / `ck` the `DeviceCountWithProgram` /
`DeviceCountWithKernel` counters. A null `m_GenericDxil` dereferenced by
the signature comparison is undefined behavior (`none`). -/
def resolveLoop (name : String) : List (Option BuildData) →
    Option CompiledDxil → Nat → Nat → Option ResolveResult
  | [], kernel, cp, ck =>
    if cp = 0 then some (ResolveResult.err CL_INVALID_PROGRAM_EXECUTABLE)
    else if ck = 0 then some (ResolveResult.err CL_INVALID_KERNEL_NAME)
    else
      match kernel with
      | some kref => some (ResolveResult.success kref)
      | none => none
  | d :: rest, kernel, cp, ck =>
    match d with
    | none => resolveLoop name rest kernel cp ck
    | some bd =>
      if bd.m_BuildStatus ≠ CL_BUILD_SUCCESS ∨
         bd.m_BinaryType ≠ CL_PROGRAM_BINARY_TYPE_EXECUTABLE then
        resolveLoop name rest kernel cp ck
      else
        match lookupKernel name bd.m_Kernels with
        | none => resolveLoop name rest kernel (cp + 1) ck
        | some entry =>
          match kernel with
          | some kref =>
            match entry.m_GenericDxil with
            | none => none
            | some kNew =>
              match compareKernelArgs kref.metadata.program_kernel_info_args
                    kNew.metadata.program_kernel_info_args with
              | some code => some (ResolveResult.err code)
              | none => resolveLoop name rest (some kNew) (cp + 1) (ck + 1)
          | none =>
            match entry.m_GenericDxil with
            | none => some (ResolveResult.err CL_OUT_OF_RESOURCES)
            | some kNew => resolveLoop name rest (some kNew) (cp + 1) (ck + 1)

/-- clCreateKernel's resolution over the program's associated devices. -/
def resolveKernel (devices : List (Option BuildData)) (name : String) :
    Option ResolveResult :=
  resolveLoop name devices none 0 0

/-- The per-device compiled artifacts the loop encounters: one entry per
device that passes the build filters and exposes `name`. -/
def foundDxils (name : String) : List (Option BuildData) → List (Option CompiledDxil)
  | [] => []
  | d :: rest =>
    match d with
    | none => foundDxils name rest
    | some bd =>
      if bd.m_BuildStatus ≠ CL_BUILD_SUCCESS ∨
         bd.m_BinaryType ≠ CL_PROGRAM_BINARY_TYPE_EXECUTABLE then
        foundDxils name rest
      else
        match lookupKernel name bd.m_Kernels with
        | none => foundDxils name rest
        | some entry => entry.m_GenericDxil :: foundDxils name rest

/-! Local-memory size reporting (`clGetKernelWorkGroupInfo`,
`CL_KERNEL_LOCAL_MEM_SIZE`, lines 630-642). -/

/-- The per-index data the loop reads: the argument's signature entry and
its current compiler configuration. -/
def localMemPairs (k : Kernel) (st : KernelState) :
    List (Option ArgInfo × Option ArgConfig) :=
  (List.range k.metadata.args.length).map (fun i =>
    (k.metadata.program_kernel_info_args.get? i, st.m_ArgMetadataToCompiler.get? i))

/-- The accumulation loop: `size -= 4; size += config.size` in `size_t`
arithmetic for every Local-address-space argument. Out-of-bounds signature
access or a non-Local configuration variant is undefined (`none`). -/
def localMemFold : List (Option ArgInfo × Option ArgConfig) → Nat → Option Nat
  | [], size => some size
  | (some info, ocfg) :: rest, size =>
    if info.address_qualifier = AddressSpace.Local then
      match ocfg with
      | some (ArgConfig.localCfg f) =>
        localMemFold rest (u64m (u64m (size + 18446744073709551612) + f))
      | _ => none
    else localMemFold rest size
  | (none, _) :: _, _ => none

/-- The value reported for `CL_KERNEL_LOCAL_MEM_SIZE`. -/
def getKernelLocalMemSize (k : Kernel) (st : KernelState) : Option Nat :=
  localMemFold (localMemPairs k st) (u64m k.metadata.local_mem_size)

/-- Total amount the loop adds modulo `2^64`: each Local argument
contributes its footprint plus `2^64 - 4` (the wrapped `-= 4`). -/
def localMemAddTotal : List (Option ArgInfo × Option ArgConfig) → Nat
  | [] => 0
  | (oinfo, ocfg) :: rest =>
    (match oinfo, ocfg with
     | some info, some (ArgConfig.localCfg f) =>
       if info.address_qualifier = AddressSpace.Local then 18446744073709551612 + f
       else 0
     | _, _ => 0) + localMemAddTotal rest

/-- The footprints currently configured for the Local arguments, in
declared order; `none` when the pair list is not well formed. -/
def footprintsOf : List (Option ArgInfo × Option ArgConfig) → Option (List Nat)
  | [] => some []
  | (some info, ocfg) :: rest =>
    if info.address_qualifier = AddressSpace.Local then
      match ocfg with
      | some (ArgConfig.localCfg f) => (footprintsOf rest).map (fun fs => f :: fs)
      | _ => none
    else footprintsOf rest
  | (none, _) :: _ => none

/-- Footprints of the Local arguments of a kernel instance. -/
def localFootprints (k : Kernel) (st : KernelState) : Option (List Nat) :=
  footprintsOf (localMemPairs k st)

/-! Concrete instances used to instantiate the theorems. -/

/-- Metadata template with no arguments. -/
def meta0 : Metadata :=
  { kernel_inputs_cbv_id := 0
    work_properties_cbv_id := 1
    num_samplers := 0
    num_srvs := 0
    num_uavs := 0
    kernel_inputs_buf_size := 8
    local_mem_size := 0
    args := []
    program_kernel_info_args := [] }

/-- Signature template: a Private scalar argument. -/
def infoScalar : ArgInfo :=
  { type_name := "int"
    name := "x"
    address_qualifier := AddressSpace.Private
    readable := false
    writable := false
    is_const := false
    is_restrict := false
    is_volatile := false }

/-- Kernel with one 4-byte Private scalar argument at blob offset 0. -/
def exKScalar : Kernel :=
  { metadata := { meta0 with
      args := [{ offset := 0, size := 4, properties := ArgProperties.scalar }]
      program_kernel_info_args := [infoScalar] } }

/-- Fresh state for `exKScalar`: an 8-byte zero blob. -/
def exStScalar : KernelState :=
  { m_UAVs := []
    m_SRVs := []
    m_Samplers := []
    m_ArgMetadataToCompiler := [ArgConfig.otherCfg]
    m_KernelArgsCbData := [0, 0, 0, 0, 0, 0, 0, 0] }

/-- Kernel with one Local argument. -/
def exKLocal : Kernel :=
  { metadata := { meta0 with
      local_mem_size := 4
      args := [{ offset := 0, size := 0, properties := ArgProperties.localArg }]
      program_kernel_info_args :=
        [{ infoScalar with address_qualifier := AddressSpace.Local }] } }

/-- Fresh state for `exKLocal`. -/
def exStLocal : KernelState :=
  { m_UAVs := []
    m_SRVs := []
    m_Samplers := []
    m_ArgMetadataToCompiler := [ArgConfig.localCfg 0]
    m_KernelArgsCbData := [0, 0, 0, 0, 0, 0, 0, 0] }

/-- Kernel with one Global plain-buffer argument on UAV slot 3. -/
def exKMem : Kernel :=
  { metadata := { meta0 with
      num_uavs := 4
      args := [{ offset := 0, size := 8, properties := ArgProperties.memory 3 }]
      program_kernel_info_args :=
        [{ infoScalar with type_name := "int*",
                           address_qualifier := AddressSpace.Global }] } }

/-- Fresh state for `exKMem`: four UAV slots and an 8-byte blob. -/
def exStMem : KernelState :=
  { m_UAVs := [none, none, none, none]
    m_SRVs := []
    m_Samplers := []
    m_ArgMetadataToCompiler := [ArgConfig.otherCfg]
    m_KernelArgsCbData := [0, 0, 0, 0, 0, 0, 0, 0] }

/-- Kernel with one read-only 2D-image argument on SRV slot 0. -/
def exKImg : Kernel :=
  { metadata := { meta0 with
      num_srvs := 1
      args := [{ offset := 0, size := 8, properties := ArgProperties.image [0] }]
      program_kernel_info_args :=
        [{ infoScalar with type_name := "image2d_t",
                           address_qualifier := AddressSpace.Global,
                           readable := true }] } }

/-- Fresh state for `exKImg`. -/
def exStImg : KernelState :=
  { m_UAVs := []
    m_SRVs := [none]
    m_Samplers := []
    m_ArgMetadataToCompiler := [ArgConfig.otherCfg]
    m_KernelArgsCbData := [0, 0, 0, 0, 0, 0, 0, 0] }

/-- A write-only-flagged 2D image resource. -/
def exResWO : Resource :=
  { image_type := CL_MEM_OBJECT_IMAGE2D
    flags := CL_MEM_WRITE_ONLY
    format_channel_order := CL_R
    format_channel_data_type := CL_SNORM_INT8 }

/-- A plain buffer resource with no access-restriction flags. -/
def exResBuf : Resource :=
  { image_type := CL_MEM_OBJECT_BUFFER
    flags := 0
    format_channel_order := 0
    format_channel_data_type := 0 }

/-- First device's compiled artifact in the resolution example. -/
def exDxil1 : CompiledDxil :=
  { metadata := { meta0 with
      local_mem_size := 16
      program_kernel_info_args := [infoScalar] } }

/-- Second device's compiled artifact: identical argument signature,
distinct artifact (different aggregate metadata). -/
def exDxil2 : CompiledDxil :=
  { metadata := { meta0 with
      local_mem_size := 32
      program_kernel_info_args := [infoScalar] } }

/-- Build data of the first device: built executable exposing "k". -/
def exBd1 : BuildData :=
  { m_BuildStatus := CL_BUILD_SUCCESS
    m_BinaryType := CL_PROGRAM_BINARY_TYPE_EXECUTABLE
    m_Kernels := [("k", { m_GenericDxil := some exDxil1 })] }

/-- Build data of the second device: built executable exposing "k". -/
def exBd2 : BuildData :=
  { m_BuildStatus := CL_BUILD_SUCCESS
    m_BinaryType := CL_PROGRAM_BINARY_TYPE_EXECUTABLE
    m_Kernels := [("k", { m_GenericDxil := some exDxil2 })] }

/-- The two-device program of the resolution example. -/
def exDevs : List (Option BuildData) := [some exBd1, some exBd2]

/-- Metadata whose kernel-inputs constant-buffer index is `UINT_MAX`:
the `+ 1` in `DeclsFromMetadata` wraps to 0. -/
def exMetaWrap : Metadata :=
  { meta0 with kernel_inputs_cbv_id := 4294967295, work_properties_cbv_id := 0 }

/-- Heap holding one kernel instance, used for the clone theorems. -/
def exHeap : KernelHeap := { objects := [exStScalar] }

/-- State of `exKLocal` after configuring the Local argument to 8 bytes. -/
def exStLocal8 : KernelState :=
  { exStLocal with m_ArgMetadataToCompiler := [ArgConfig.localCfg 8] }

/-- State of `exKMem` after binding `exResBuf` to the buffer argument:
UAV slot 3 holds the resource and the blob holds `3 <<< 32`. -/
def exStMemAfter : KernelState :=
  { exStMem with
    m_UAVs := [none, none, none, some exResBuf]
    m_KernelArgsCbData := [0, 0, 0, 0, 3, 0, 0, 0] }

/-- Heap after cloning the instance of `exHeap`: the clone at address 1. -/
def exHeapClone : KernelHeap := { objects := [exStScalar, exStScalar] }

/-- Heap after a 4-byte scalar binding on the clone at address 1. -/
def exHeapAfter : KernelHeap :=
  { objects := [exStScalar,
      { exStScalar with m_KernelArgsCbData := [1, 2, 3, 4, 0, 0, 0, 0] }] }

/-! Helper lemmas. -/

theorem getD_writeBytes (blob src : List Nat) (off j : Nat)
    (h : off + src.length ≤ blob.length) (hj : j < src.length) :
    (writeBytes blob off src).getD (off + j) 0 = src.getD j 0 := by
  have hoff : off ≤ blob.length := Nat.le_trans (Nat.le_add_right off src.length) h
  have htake : (blob.take off).length = off := by
    rw [List.length_take]
    exact Nat.min_eq_left hoff
  have h1 : (blob.take off).length ≤ off + j := by omega
  unfold writeBytes
  rw [List.append_assoc, List.getD_append_right _ _ _ _ h1, htake,
    Nat.add_sub_cancel_left, List.getD_append _ _ _ _ hj]

theorem readU64_writeBytes_u64 (blob : List Nat) (off v : Nat)
    (h : off + 8 ≤ blob.length) :
    readU64 (writeBytes blob off (u64Bytes v)) off = u64m v := by
  have hlen : (u64Bytes v).length = 8 := by simp [u64Bytes, u32Bytes]
  have h8 : off + (u64Bytes v).length ≤ blob.length := by rw [hlen]; exact h
  have g : ∀ j, j < 8 → (writeBytes blob off (u64Bytes v)).getD (off + j) 0 =
      (u64Bytes v).getD j 0 := by
    intro j hj
    exact getD_writeBytes blob _ off j h8 (by rw [hlen]; exact hj)
  have g0 : (writeBytes blob off (u64Bytes v)).getD off 0 = (u64Bytes v).getD 0 0 := by
    have h0 := g 0 (by omega)
    rwa [Nat.add_zero] at h0
  have e0 : (u64Bytes v).getD 0 0 = u32 v % 256 := rfl
  have e1 : (u64Bytes v).getD 1 0 = u32 v / 256 % 256 := rfl
  have e2 : (u64Bytes v).getD 2 0 = u32 v / 65536 % 256 := rfl
  have e3 : (u64Bytes v).getD 3 0 = u32 v / 16777216 % 256 := rfl
  have e4 : (u64Bytes v).getD 4 0 = v / 4294967296 % 4294967296 % 256 := rfl
  have e5 : (u64Bytes v).getD 5 0 = v / 4294967296 % 4294967296 / 256 % 256 := rfl
  have e6 : (u64Bytes v).getD 6 0 = v / 4294967296 % 4294967296 / 65536 % 256 := rfl
  have e7 : (u64Bytes v).getD 7 0 = v / 4294967296 % 4294967296 / 16777216 % 256 := rfl
  unfold readU64
  rw [g0, g 1 (by omega), g 2 (by omega), g 3 (by omega), g 4 (by omega),
    g 5 (by omega), g 6 (by omega), g 7 (by omega), e0, e1, e2, e3, e4, e5, e6, e7]
  unfold u32 u64m
  omega

theorem readU64_writeBytes (blob : List Nat) (off v : Nat)
    (h : off + 8 ≤ blob.length) (hv : v < 18446744073709551616) :
    readU64 (writeBytes blob off (u64Bytes v)) off = v := by
  rw [readU64_writeBytes_u64 blob off v h]
  exact Nat.mod_eq_of_lt hv

theorem lt_length_of_get?_eq_some {α : Type} {l : List α} {n : Nat} {a : α}
    (h : l.get? n = some a) : n < l.length := by
  by_contra hc
  rw [List.get?_eq_none.mpr (Nat.le_of_not_lt hc)] at h
  exact Option.noConfusion h

theorem SetArg_reduce_global (k : Kernel) (st : KernelState) (i sz : Nat)
    (v : Option ArgValue) (am : ArgMeta) (ai : ArgInfo)
    (hm : k.metadata.args.get? i = some am)
    (hi : k.metadata.program_kernel_info_args.get? i = some ai)
    (haddr : ai.address_qualifier = AddressSpace.Global ∨
             ai.address_qualifier = AddressSpace.Constant) :
    SetArg k st i sz v = setArgGlobalConstant st am ai sz v := by
  have hlt : i < k.metadata.args.length := lt_length_of_get?_eq_some hm
  unfold SetArg
  rw [if_neg (by omega), hm, hi]
  obtain ⟨tn, nm, aq, rd, wr, c1, r1, v1⟩ := ai
  rcases haddr with h | h <;> (subst h; rfl)

theorem SetArg_reduce_private (k : Kernel) (st : KernelState) (i sz : Nat)
    (v : Option ArgValue) (am : ArgMeta) (ai : ArgInfo)
    (hm : k.metadata.args.get? i = some am)
    (hi : k.metadata.program_kernel_info_args.get? i = some ai)
    (haddr : ai.address_qualifier = AddressSpace.Private) :
    SetArg k st i sz v = setArgPrivate st i am ai sz v := by
  have hlt : i < k.metadata.args.length := lt_length_of_get?_eq_some hm
  unfold SetArg
  rw [if_neg (by omega), hm, hi]
  obtain ⟨tn, nm, aq, rd, wr, c1, r1, v1⟩ := ai
  subst haddr
  rfl

theorem SetArg_reduce_local (k : Kernel) (st : KernelState) (i sz : Nat)
    (v : Option ArgValue) (am : ArgMeta) (ai : ArgInfo)
    (hm : k.metadata.args.get? i = some am)
    (hi : k.metadata.program_kernel_info_args.get? i = some ai)
    (haddr : ai.address_qualifier = AddressSpace.Local) :
    SetArg k st i sz v = setArgLocal st i sz v := by
  have hlt : i < k.metadata.args.length := lt_length_of_get?_eq_some hm
  unfold SetArg
  rw [if_neg (by omega), hm, hi]
  obtain ⟨tn, nm, aq, rd, wr, c1, r1, v1⟩ := ai
  subst haddr
  rfl

theorem setArgGlobalConstant_failure_eq (st : KernelState) (am : ArgMeta)
    (ai : ArgInfo) (sz : Nat) (v : Option ArgValue) (r : Int) (st2 : KernelState)
    (h : setArgGlobalConstant st am ai sz v = some (r, st2)) (hr : r ≠ CL_SUCCESS) :
    st2 = st := by
  unfold setArgGlobalConstant at h
  repeat' split at h
  all_goals simp_all
  all_goals (try (obtain ⟨h1, h⟩ := h))
  all_goals (repeat' split at h)
  all_goals simp_all

theorem setArgPrivate_failure_eq (st : KernelState) (i : Nat) (am : ArgMeta)
    (ai : ArgInfo) (sz : Nat) (v : Option ArgValue) (r : Int) (st2 : KernelState)
    (h : setArgPrivate st i am ai sz v = some (r, st2)) (hr : r ≠ CL_SUCCESS) :
    st2 = st := by
  unfold setArgPrivate at h
  repeat' split at h
  all_goals simp_all

theorem setArgLocal_failure_eq (st : KernelState) (i sz : Nat)
    (v : Option ArgValue) (r : Int) (st2 : KernelState)
    (h : setArgLocal st i sz v = some (r, st2)) (hr : r ≠ CL_SUCCESS) :
    st2 = st := by
  unfold setArgLocal at h
  repeat' split at h
  all_goals simp_all

theorem SetArg_failure_eq (k : Kernel) (st : KernelState) (i sz : Nat)
    (v : Option ArgValue) (r : Int) (st2 : KernelState)
    (h : SetArg k st i sz v = some (r, st2)) (hr : r ≠ CL_SUCCESS) : st2 = st := by
  unfold SetArg at h
  split at h
  · simp_all
  · split at h
    · split at h
      · exact setArgGlobalConstant_failure_eq _ _ _ _ _ _ _ h hr
      · exact setArgGlobalConstant_failure_eq _ _ _ _ _ _ _ h hr
      · exact setArgPrivate_failure_eq _ _ _ _ _ _ _ _ h hr
      · exact setArgLocal_failure_eq _ _ _ _ _ _ h hr
    · exact Option.noConfusion h

theorem argInfoMatches_iff (a b : ArgInfo) : argInfoMatches a b = true ↔ a = b := by
  obtain ⟨t1, n1, a1, r1, w1, c1, s1, v1⟩ := a
  obtain ⟨t2, n2, a2, r2, w2, c2, s2, v2⟩ := b
  simp [argInfoMatches, Bool.and_eq_true, beq_iff_eq, and_assoc]

theorem argsAllMatch_iff : ∀ (a b : List ArgInfo), argsAllMatch a b = true ↔ a = b := by
  intro a
  induction a with
  | nil =>
    intro b
    cases b <;> simp [argsAllMatch]
  | cons x xs ih =>
    intro b
    cases b with
    | nil => simp [argsAllMatch]
    | cons y ys =>
      simp [argsAllMatch, Bool.and_eq_true, argInfoMatches_iff, ih]

theorem compareKernelArgs_none_iff (a b : List ArgInfo) :
    compareKernelArgs a b = none ↔ a = b := by
  unfold compareKernelArgs
  by_cases hl : a.length = b.length
  · rw [if_neg (by omega)]
    by_cases hm : argsAllMatch a b = true
    · rw [if_pos hm]
      simp [(argsAllMatch_iff a b).mp hm]
    · rw [if_neg hm]
      have hne : ¬a = b := fun he => hm ((argsAllMatch_iff a b).mpr he)
      simp [CL_INVALID_KERNEL_DEFINITION, hne]
  · rw [if_pos hl]
    have hne : ¬a = b := fun he => hl (by rw [he])
    simp [CL_INVALID_KERNEL_DEFINITION, hne]

theorem resolveLoop_success_charac (name : String) :
    ∀ (devs : List (Option BuildData)) (kernel : Option CompiledDxil) (cp ck : Nat)
      (k : CompiledDxil),
      resolveLoop name devs kernel cp ck = some (ResolveResult.success k) →
      ∃ ds : List CompiledDxil,
        foundDxils name devs = ds.map some ∧
        (kernel.toList ++ ds).getLast? = some k ∧
        ∀ d ∈ kernel.toList ++ ds,
          d.metadata.program_kernel_info_args = k.metadata.program_kernel_info_args := by
  intro devs
  induction devs with
  | nil =>
    intro kernel cp ck k h
    unfold resolveLoop at h
    split at h
    · exact absurd h (by simp)
    · split at h
      · exact absurd h (by simp)
      · cases kernel with
        | none => exact Option.noConfusion h
        | some kref =>
          have hk : kref = k := by simpa using h
          subst hk
          exact ⟨[], rfl, by simp, by simp⟩
  | cons d rest ih =>
    intro kernel cp ck k h
    cases d with
    | none =>
      have hres : foundDxils name (none :: rest) = foundDxils name rest := rfl
      rw [hres]
      exact ih kernel cp ck k h
    | some bd =>
      by_cases hfilter : bd.m_BuildStatus ≠ CL_BUILD_SUCCESS ∨
          bd.m_BinaryType ≠ CL_PROGRAM_BINARY_TYPE_EXECUTABLE
      · simp only [resolveLoop] at h
        rw [if_pos hfilter] at h
        have hres : foundDxils name (some bd :: rest) = foundDxils name rest := by
          simp only [foundDxils]
          rw [if_pos hfilter]
        rw [hres]
        exact ih kernel cp ck k h
      · cases hlk : lookupKernel name bd.m_Kernels with
        | none =>
          simp only [resolveLoop] at h
          rw [if_neg hfilter] at h
          simp only [hlk] at h
          have hres : foundDxils name (some bd :: rest) = foundDxils name rest := by
            simp only [foundDxils]
            rw [if_neg hfilter]
            simp only [hlk]
          rw [hres]
          exact ih kernel (cp + 1) ck k h
        | some entry =>
          have hres : foundDxils name (some bd :: rest) =
              entry.m_GenericDxil :: foundDxils name rest := by
            simp only [foundDxils]
            rw [if_neg hfilter]
            simp only [hlk]
          cases kernel with
          | some kref =>
            cases hgd : entry.m_GenericDxil with
            | none =>
              simp only [resolveLoop] at h
              rw [if_neg hfilter] at h
              simp only [hlk, hgd] at h
              exact Option.noConfusion h
            | some kNew =>
              cases hcmp : compareKernelArgs kref.metadata.program_kernel_info_args
                  kNew.metadata.program_kernel_info_args with
              | some code =>
                simp only [resolveLoop] at h
                rw [if_neg hfilter] at h
                simp only [hlk, hgd, hcmp] at h
                exact absurd h (by simp)
              | none =>
                have heq : kref.metadata.program_kernel_info_args =
                    kNew.metadata.program_kernel_info_args :=
                  (compareKernelArgs_none_iff _ _).mp hcmp
                simp only [resolveLoop] at h
                rw [if_neg hfilter] at h
                simp only [hlk, hgd, hcmp] at h
                obtain ⟨ds, hds, hlast, hall⟩ := ih (some kNew) (cp + 1) (ck + 1) k h
                simp only [Option.toList_some, List.singleton_append] at hlast hall
                refine ⟨kNew :: ds, ?_, ?_, ?_⟩
                · rw [hres, hgd, hds]
                  rfl
                · simp only [Option.toList_some, List.singleton_append]
                  rw [List.getLast?_cons_cons]
                  exact hlast
                · simp only [Option.toList_some, List.singleton_append]
                  intro x hx
                  rcases List.mem_cons.mp hx with hx1 | hx2
                  · subst hx1
                    rw [heq]
                    exact hall kNew (List.mem_cons_self _ _)
                  · exact hall x hx2
          | none =>
            cases hgd : entry.m_GenericDxil with
            | none =>
              simp only [resolveLoop] at h
              rw [if_neg hfilter] at h
              simp only [hlk, hgd] at h
              exact absurd h (by simp)
            | some kNew =>
              simp only [resolveLoop] at h
              rw [if_neg hfilter] at h
              simp only [hlk, hgd] at h
              obtain ⟨ds, hds, hlast, hall⟩ := ih (some kNew) (cp + 1) (ck + 1) k h
              simp only [Option.toList_some, List.singleton_append] at hlast hall
              refine ⟨kNew :: ds, ?_, ?_, ?_⟩
              · rw [hres, hgd, hds]
                rfl
              · simpa using hlast
              · simpa using hall

theorem localMemFold_eq :
    ∀ (pairs : List (Option ArgInfo × Option ArgConfig)) (size v : Nat),
      size < 18446744073709551616 →
      localMemFold pairs size = some v →
      v = (size + localMemAddTotal pairs) % 18446744073709551616 := by
  intro pairs
  induction pairs with
  | nil =>
    intro size v hs h
    simp only [localMemFold, Option.some.injEq] at h
    simp only [localMemAddTotal, Nat.add_zero]
    rw [← h, Nat.mod_eq_of_lt hs]
  | cons p rest ih =>
    obtain ⟨oinfo, ocfg⟩ := p
    intro size v hs h
    cases oinfo with
    | none => exact Option.noConfusion h
    | some info =>
      cases ocfg with
      | none =>
        replace h : (if info.address_qualifier = AddressSpace.Local then
            (none : Option Nat) else localMemFold rest size) = some v := h
        have haux : localMemAddTotal ((some info, none) :: rest) =
            0 + localMemAddTotal rest := rfl
        rw [haux, Nat.zero_add]
        by_cases hl : info.address_qualifier = AddressSpace.Local
        · rw [if_pos hl] at h
          exact Option.noConfusion h
        · rw [if_neg hl] at h
          exact ih size v hs h
      | some cfg =>
        cases cfg with
        | localCfg f =>
          replace h : (if info.address_qualifier = AddressSpace.Local then
              localMemFold rest (u64m (u64m (size + 18446744073709551612) + f))
            else localMemFold rest size) = some v := h
          have haux : localMemAddTotal ((some info, some (ArgConfig.localCfg f)) :: rest) =
              (if info.address_qualifier = AddressSpace.Local then
                18446744073709551612 + f else 0) + localMemAddTotal rest := rfl
          rw [haux]
          by_cases hl : info.address_qualifier = AddressSpace.Local
          · rw [if_pos hl] at h
            rw [if_pos hl]
            have hlt : u64m (u64m (size + 18446744073709551612) + f) <
                18446744073709551616 := Nat.mod_lt _ (by omega)
            have hv := ih _ v hlt h
            unfold u64m at hv
            omega
          · rw [if_neg hl] at h
            rw [if_neg hl, Nat.zero_add]
            exact ih size v hs h
        | samplerCfg cfg2 =>
          replace h : (if info.address_qualifier = AddressSpace.Local then
              (none : Option Nat) else localMemFold rest size) = some v := h
          have haux : localMemAddTotal ((some info, some (ArgConfig.samplerCfg cfg2)) :: rest) =
              0 + localMemAddTotal rest := rfl
          rw [haux, Nat.zero_add]
          by_cases hl : info.address_qualifier = AddressSpace.Local
          · rw [if_pos hl] at h
            exact Option.noConfusion h
          · rw [if_neg hl] at h
            exact ih size v hs h
        | otherCfg =>
          replace h : (if info.address_qualifier = AddressSpace.Local then
              (none : Option Nat) else localMemFold rest size) = some v := h
          have haux : localMemAddTotal ((some info, some ArgConfig.otherCfg) :: rest) =
              0 + localMemAddTotal rest := rfl
          rw [haux, Nat.zero_add]
          by_cases hl : info.address_qualifier = AddressSpace.Local
          · rw [if_pos hl] at h
            exact Option.noConfusion h
          · rw [if_neg hl] at h
            exact ih size v hs h

theorem footprintsOf_addTotal :
    ∀ (pairs : List (Option ArgInfo × Option ArgConfig)) (fs : List Nat),
      footprintsOf pairs = some fs →
      localMemAddTotal pairs = fs.sum + fs.length * 18446744073709551612 := by
  intro pairs
  induction pairs with
  | nil =>
    intro fs h
    simp only [footprintsOf, Option.some.injEq] at h
    subst h
    simp [localMemAddTotal]
  | cons p rest ih =>
    obtain ⟨oinfo, ocfg⟩ := p
    intro fs h
    cases oinfo with
    | none => exact Option.noConfusion h
    | some info =>
      cases ocfg with
      | none =>
        replace h : (if info.address_qualifier = AddressSpace.Local then
            (none : Option (List Nat)) else footprintsOf rest) = some fs := h
        have haux : localMemAddTotal ((some info, none) :: rest) =
            0 + localMemAddTotal rest := rfl
        rw [haux, Nat.zero_add]
        by_cases hl : info.address_qualifier = AddressSpace.Local
        · rw [if_pos hl] at h
          exact Option.noConfusion h
        · rw [if_neg hl] at h
          exact ih fs h
      | some cfg =>
        cases cfg with
        | localCfg f =>
          replace h : (if info.address_qualifier = AddressSpace.Local then
              (footprintsOf rest).map (fun fs2 => f :: fs2)
            else footprintsOf rest) = some fs := h
          have haux : localMemAddTotal ((some info, some (ArgConfig.localCfg f)) :: rest) =
              (if info.address_qualifier = AddressSpace.Local then
                18446744073709551612 + f else 0) + localMemAddTotal rest := rfl
          rw [haux]
          by_cases hl : info.address_qualifier = AddressSpace.Local
          · rw [if_pos hl] at h
            rw [if_pos hl]
            rcases Option.map_eq_some'.mp h with ⟨fs2, hfs2, hcons⟩
            subst hcons
            have ht := ih fs2 hfs2
            rw [ht]
            simp only [List.sum_cons, List.length_cons]
            ring
          · rw [if_neg hl] at h
            rw [if_neg hl, Nat.zero_add]
            exact ih fs h
        | samplerCfg cfg2 =>
          replace h : (if info.address_qualifier = AddressSpace.Local then
              (none : Option (List Nat)) else footprintsOf rest) = some fs := h
          have haux : localMemAddTotal ((some info, some (ArgConfig.samplerCfg cfg2)) :: rest) =
              0 + localMemAddTotal rest := rfl
          rw [haux, Nat.zero_add]
          by_cases hl : info.address_qualifier = AddressSpace.Local
          · rw [if_pos hl] at h
            exact Option.noConfusion h
          · rw [if_neg hl] at h
            exact ih fs h
        | otherCfg =>
          replace h : (if info.address_qualifier = AddressSpace.Local then
              (none : Option (List Nat)) else footprintsOf rest) = some fs := h
          have haux : localMemAddTotal ((some info, some ArgConfig.otherCfg) :: rest) =
              0 + localMemAddTotal rest := rfl
          rw [haux, Nat.zero_add]
          by_cases hl : info.address_qualifier = AddressSpace.Local
          · rw [if_pos hl] at h
            exact Option.noConfusion h
          · rw [if_neg hl] at h
            exact ih fs h

/-! Claim theorems. -/

/-- C1 (code-bug evaluation): the claim requires every index outside
`[0, argCount)` — in particular index equal to argCount — to fail with
`CL_INVALID_ARG_INDEX` and mutate nothing; but the guard in the code is
`arg_index > args.size()`, so on a one-argument kernel index 1 = argCount
slips past the guard and the following metadata access is one past the
end of the argument arrays (undefined behavior, `none` in the model),
while index 2 > argCount is rejected with the state unchanged. -/
theorem C1_setArg_index_guard_off_by_one :
    SetArg exKScalar exStScalar 1 8 none = none ∧
    SetArg exKScalar exStScalar 2 8 none =
      some (CL_INVALID_ARG_INDEX, exStScalar) := by
  exact ⟨by decide, by decide⟩

/-- C3: every `SetArg` call that returns a failure code leaves the kernel
instance's observable state — UAV and SRV slot arrays, sampler array,
constant-buffer blob, compiler-config array — exactly as it was before
the call; in particular a wrong-size scalar binding leaves the blob
bytes at that argument's offset unmodified. -/
theorem C3_setArg_failure_atomic (k : Kernel) (st : KernelState) (i sz : Nat)
    (v : Option ArgValue) (r : Int) (st2 : KernelState)
    (h : SetArg k st i sz v = some (r, st2)) (hr : r ≠ CL_SUCCESS) :
    st2 = st ∧ st2.m_KernelArgsCbData = st.m_KernelArgsCbData := by
  have he := SetArg_failure_eq k st i sz v r st2 h hr
  exact ⟨he, by rw [he]⟩

/-- Witness for C3: a wrong-size scalar binding on a concrete kernel
fails with `CL_INVALID_ARG_SIZE` and the state is unchanged. -/
theorem C3_setArg_failure_atomic_witness :
    SetArg exKScalar exStScalar 0 5 (some (ArgValue.bytes [1, 2, 3, 4, 5])) =
      some (CL_INVALID_ARG_SIZE, exStScalar) ∧
    CL_INVALID_ARG_SIZE ≠ CL_SUCCESS ∧
    exStScalar = exStScalar ∧
    exStScalar.m_KernelArgsCbData = exStScalar.m_KernelArgsCbData := by
  have h1 : SetArg exKScalar exStScalar 0 5 (some (ArgValue.bytes [1, 2, 3, 4, 5])) =
      some (CL_INVALID_ARG_SIZE, exStScalar) := by decide
  have h2 : CL_INVALID_ARG_SIZE ≠ CL_SUCCESS := by decide
  exact ⟨h1, h2, C3_setArg_failure_atomic exKScalar exStScalar 0 5 _ _ _ h1 h2⟩

/-- C6 counterexample: `SetArg` on a Local argument with byteSize
`2^32` and a null value succeeds but records footprint 0 — the
`(cl_uint)` cast truncates — so the claim that byteSize N is recorded
as the footprint fails at N = 2^32. -/
theorem C6_local_truncation_counterexample :
    SetArg exKLocal exStLocal 0 4294967296 none =
      some (CL_SUCCESS,
        { exStLocal with m_ArgMetadataToCompiler := [ArgConfig.localCfg 0] }) ∧
    ArgConfig.localCfg 0 ≠ ArgConfig.localCfg 4294967296 := by
  exact ⟨by decide, by decide⟩

/-- C6 (amended): for a Local-address-space argument, byteSize zero fails
with the size error; a non-null value pointer fails with the
value-must-be-null error; byteSize N with a null value succeeds, records
N truncated to 32 bits (N mod 2^32, from the `(cl_uint)` cast — equal to
N whenever N < 2^32) as that argument's local-memory footprint in the
compiler-config entry, and writes nothing to the blob or slot arrays. -/
theorem C6_setArg_local_protocol (k : Kernel) (st : KernelState) (i sz : Nat)
    (v : Option ArgValue) (am : ArgMeta) (ai : ArgInfo) (c : Nat)
    (hm : k.metadata.args.get? i = some am)
    (hi : k.metadata.program_kernel_info_args.get? i = some ai)
    (haddr : ai.address_qualifier = AddressSpace.Local)
    (hcfg : st.m_ArgMetadataToCompiler.get? i = some (ArgConfig.localCfg c)) :
    SetArg k st i 0 v = some (CL_INVALID_ARG_SIZE, st) ∧
    (sz ≠ 0 → v ≠ none → SetArg k st i sz v = some (CL_INVALID_ARG_VALUE, st)) ∧
    (sz ≠ 0 → SetArg k st i sz none = some (CL_SUCCESS,
      { st with m_ArgMetadataToCompiler :=
          st.m_ArgMetadataToCompiler.set i (ArgConfig.localCfg (u32 sz)) })) := by
  refine ⟨?_, ?_, ?_⟩
  · rw [SetArg_reduce_local k st i 0 v am ai hm hi haddr]
    unfold setArgLocal
    rw [if_pos rfl]
  · intro hsz hv
    rw [SetArg_reduce_local k st i sz v am ai hm hi haddr]
    unfold setArgLocal
    rw [if_neg hsz, if_pos hv]
  · intro hsz
    rw [SetArg_reduce_local k st i sz none am ai hm hi haddr]
    unfold setArgLocal
    rw [if_neg hsz, if_neg (by simp)]
    simp only [hcfg]

/-- Witness for C6: on a concrete kernel with one Local argument, size 0
fails, a non-null value fails, and size 8 with a null value succeeds
recording footprint 8. -/
theorem C6_setArg_local_protocol_witness :
    SetArg exKLocal exStLocal 0 0 none = some (CL_INVALID_ARG_SIZE, exStLocal) ∧
    SetArg exKLocal exStLocal 0 8 (some (ArgValue.bytes [])) =
      some (CL_INVALID_ARG_VALUE, exStLocal) ∧
    SetArg exKLocal exStLocal 0 8 none = some (CL_SUCCESS, exStLocal8) := by
  obtain ⟨h1, h2, h3⟩ := C6_setArg_local_protocol exKLocal exStLocal 0 8
    (some (ArgValue.bytes [])) ⟨0, 0, ArgProperties.localArg⟩
    { infoScalar with address_qualifier := AddressSpace.Local } 0 rfl rfl rfl rfl
  refine ⟨h1, h2 (by decide) (by decide), ?_⟩
  have h4 := h3 (by decide)
  rw [h4]
  decide

/-- C7 counterexample: with a kernel-inputs constant-buffer index of
`UINT_MAX` the cl_uint increment wraps to 0, so the computed
constant-buffer count is 1 while max of the two indices plus one is
`2^32`; the claimed identity fails on that metadata. -/
theorem C7_numCBs_wrap_counterexample :
    (DeclsFromMetadata exMetaWrap).m_NumCBs = 1 ∧
    max exMetaWrap.kernel_inputs_cbv_id exMetaWrap.work_properties_cbv_id + 1 =
      4294967296 ∧
    (1 : Nat) ≠ 4294967296 := by
  exact ⟨by decide, by decide, by decide⟩

/-- C7 (amended): whenever the two distinguished constant-buffer indices
are small enough that the cl_uint `+ 1` does not wrap (both below
`2^32 - 1`), the declaration table's constant-buffer count
`max(kernelInputsCBIndex + 1, workPropertiesCBIndex + 1)` equals
`max(kernelInputsCBIndex, workPropertiesCBIndex) + 1`. -/
theorem C7_numCBs_eq_max_plus_one (md : Metadata)
    (h1 : md.kernel_inputs_cbv_id + 1 < 4294967296)
    (h2 : md.work_properties_cbv_id + 1 < 4294967296) :
    (DeclsFromMetadata md).m_NumCBs =
      max md.kernel_inputs_cbv_id md.work_properties_cbv_id + 1 := by
  simp only [DeclsFromMetadata, u32]
  have ha : md.kernel_inputs_cbv_id % 4294967296 = md.kernel_inputs_cbv_id :=
    Nat.mod_eq_of_lt (by omega)
  have hb : md.work_properties_cbv_id % 4294967296 = md.work_properties_cbv_id :=
    Nat.mod_eq_of_lt (by omega)
  rw [ha, hb, Nat.mod_eq_of_lt h1, Nat.mod_eq_of_lt h2]
  omega

/-- Witness for C7: the template metadata has indices 0 and 1, giving a
constant-buffer count of 2 = max 0 1 + 1. -/
theorem C7_numCBs_eq_max_plus_one_witness :
    meta0.kernel_inputs_cbv_id + 1 < 4294967296 ∧
    meta0.work_properties_cbv_id + 1 < 4294967296 ∧
    (DeclsFromMetadata meta0).m_NumCBs =
      max meta0.kernel_inputs_cbv_id meta0.work_properties_cbv_id + 1 := by
  exact ⟨by decide, by decide, C7_numCBs_eq_max_plus_one meta0 (by decide) (by decide)⟩

/-- C2 counterexample: two built devices expose kernel "k" with
identical argument signatures but distinct compiled artifacts; the
resolution loop reassigns its artifact pointer on every device, so the
kernel is constructed from the SECOND (last) device's artifact, not the
first's as claimed. -/
theorem C2_reference_artifact_counterexample :
    resolveKernel exDevs "k" = some (ResolveResult.success exDxil2) ∧
    exDxil2 ≠ exDxil1 := by
  exact ⟨by decide, by decide⟩

/-- C2 (amended): during name-based resolution each device-with-kernel's
argument list is compared field-by-field against the previously accepted
device's signature — equivalent to comparison against the first, since
the comparison is full equality of every compared field — so on success
all exposed signatures are equal; and the compiled artifact used to
construct the kernel instance is the LAST device-with-kernel's, not the
first's. -/
theorem C2_resolve_success_last_artifact (devs : List (Option BuildData))
    (name : String) (k : CompiledDxil)
    (h : resolveKernel devs name = some (ResolveResult.success k)) :
    ∃ ds : List CompiledDxil,
      foundDxils name devs = ds.map some ∧
      ds.getLast? = some k ∧
      ∀ d ∈ ds, d.metadata.program_kernel_info_args =
        k.metadata.program_kernel_info_args := by
  obtain ⟨ds, h1, h2, h3⟩ := resolveLoop_success_charac name devs none 0 0 k h
  simp only [Option.toList_none, List.nil_append] at h2 h3
  exact ⟨ds, h1, h2, h3⟩

/-- Witness for C2 (amended): on the concrete two-device program, the
returned artifact is the last found one and all signatures agree. -/
theorem C2_resolve_success_last_artifact_witness :
    resolveKernel exDevs "k" = some (ResolveResult.success exDxil2) ∧
    ∃ ds : List CompiledDxil,
      foundDxils "k" exDevs = ds.map some ∧
      ds.getLast? = some exDxil2 ∧
      ∀ d ∈ ds, d.metadata.program_kernel_info_args =
        exDxil2.metadata.program_kernel_info_args := by
  have h1 : resolveKernel exDevs "k" = some (ResolveResult.success exDxil2) := by
    decide
  exact ⟨h1, C2_resolve_success_last_artifact exDevs "k" exDxil2 h1⟩

/-- C8: after cloning a kernel instance, a SetArg call on either instance
leaves the other instance's entire mutable state — slot arrays, sampler
array, blob, compiler-config array — unchanged; the copy constructor
copies every container by value, so the two instances share no mutable
storage. -/
theorem C8_clone_setarg_independence (k : Kernel) (h : KernelHeap)
    (src caddr : Nat) (h1 : KernelHeap) (i sz : Nat) (v : Option ArgValue)
    (hclone : cloneKernelObj h src = some (h1, caddr)) :
    (∀ r h2, setArgOnObj k h1 caddr i sz v = some (r, h2) →
      h2.objects.get? src = h.objects.get? src) ∧
    (∀ r h3, setArgOnObj k h1 src i sz v = some (r, h3) →
      h3.objects.get? caddr = h1.objects.get? caddr) := by
  unfold cloneKernelObj at hclone
  cases hsrc : h.objects.get? src with
  | none =>
    rw [hsrc] at hclone
    exact Option.noConfusion hclone
  | some st =>
    rw [hsrc] at hclone
    simp only [Option.some.injEq, Prod.mk.injEq] at hclone
    obtain ⟨hh1, hcaddr⟩ := hclone
    have hsrclt : src < h.objects.length := lt_length_of_get?_eq_some hsrc
    have hne : src ≠ caddr := by omega
    constructor
    · intro r h2 hset
      unfold setArgOnObj at hset
      cases hobj : h1.objects.get? caddr with
      | none =>
        simp only [hobj] at hset
        exact Option.noConfusion hset
      | some stc =>
        simp only [hobj] at hset
        cases hsa : SetArg k stc i sz v with
        | none =>
          simp only [hsa] at hset
          exact Option.noConfusion hset
        | some p =>
          obtain ⟨r0, st2⟩ := p
          simp only [hsa, Option.some.injEq, Prod.mk.injEq] at hset
          obtain ⟨hr0, hh2⟩ := hset
          rw [← hh2]
          show (h1.objects.set caddr st2).get? src = some st
          rw [List.get?_eq_getElem?, List.getElem?_set_ne (fun he => hne he.symm)]
          rw [← hh1]
          show ((h.objects ++ [copyKernelState st]) : List KernelState)[src]? = some st
          rw [List.getElem?_append_left hsrclt, ← List.get?_eq_getElem?]
          exact hsrc
    · intro r h3 hset
      unfold setArgOnObj at hset
      cases hobj : h1.objects.get? src with
      | none =>
        simp only [hobj] at hset
        exact Option.noConfusion hset
      | some sto =>
        simp only [hobj] at hset
        cases hsa : SetArg k sto i sz v with
        | none =>
          simp only [hsa] at hset
          exact Option.noConfusion hset
        | some p =>
          obtain ⟨r0, st2⟩ := p
          simp only [hsa, Option.some.injEq, Prod.mk.injEq] at hset
          obtain ⟨hr0, hh3⟩ := hset
          rw [← hh3]
          show (h1.objects.set src st2).get? caddr = h1.objects.get? caddr
          rw [List.get?_eq_getElem?, List.getElem?_set_ne hne,
            List.get?_eq_getElem?]

/-- Witness for C8: cloning the one-instance heap and running a scalar
binding on the clone leaves the original instance untouched. -/
theorem C8_clone_setarg_independence_witness :
    cloneKernelObj exHeap 0 = some (exHeapClone, 1) ∧
    setArgOnObj exKScalar exHeapClone 1 0 4 (some (ArgValue.bytes [1, 2, 3, 4])) =
      some (CL_SUCCESS, exHeapAfter) ∧
    exHeapAfter.objects.get? 0 = exHeap.objects.get? 0 := by
  have h1 : cloneKernelObj exHeap 0 = some (exHeapClone, 1) := by decide
  have h2 : setArgOnObj exKScalar exHeapClone 1 0 4
      (some (ArgValue.bytes [1, 2, 3, 4])) = some (CL_SUCCESS, exHeapAfter) := by
    decide
  exact ⟨h1, h2,
    (C8_clone_setarg_independence exKScalar exHeap 0 1 exHeapClone 0 4
      (some (ArgValue.bytes [1, 2, 3, 4])) h1).1 CL_SUCCESS exHeapAfter h2⟩

/-- C9: for a Private non-sampler (scalar) argument, the only checked
failure is a byte-size mismatch (`CL_INVALID_ARG_SIZE`); with the
matching size the bytes are copied unguarded into the blob at the
argument's offset, so a null value pointer is not rejected but
dereferenced (undefined behavior, `none` in the model) — a non-null
pointer to byteSize readable bytes is a precondition. -/
theorem C9_setArg_scalar_unguarded_copy (k : Kernel) (st : KernelState)
    (i : Nat) (am : ArgMeta) (ai : ArgInfo)
    (hm : k.metadata.args.get? i = some am)
    (hi : k.metadata.program_kernel_info_args.get? i = some ai)
    (haddr : ai.address_qualifier = AddressSpace.Private)
    (hts : ai.type_name ≠ "sampler_t") :
    (∀ sz v, sz ≠ am.size → SetArg k st i sz v = some (CL_INVALID_ARG_SIZE, st)) ∧
    SetArg k st i am.size none = none ∧
    (∀ bs, am.size ≤ bs.length →
      am.offset + am.size ≤ st.m_KernelArgsCbData.length →
      SetArg k st i am.size (some (ArgValue.bytes bs)) = some (CL_SUCCESS,
        { st with m_KernelArgsCbData :=
            writeBytes st.m_KernelArgsCbData am.offset (bs.take am.size) })) := by
  refine ⟨?_, ?_, ?_⟩
  · intro sz v hsz
    rw [SetArg_reduce_private k st i sz v am ai hm hi haddr]
    unfold setArgPrivate
    rw [if_neg hts, if_pos hsz]
  · rw [SetArg_reduce_private k st i am.size none am ai hm hi haddr]
    unfold setArgPrivate
    rw [if_neg hts, if_neg (by simp)]
  · intro bs hbs hoff
    rw [SetArg_reduce_private k st i am.size (some (ArgValue.bytes bs)) am ai
      hm hi haddr]
    unfold setArgPrivate
    rw [if_neg hts, if_neg (by simp)]
    show (if am.size ≤ bs.length ∧
        am.offset + am.size ≤ st.m_KernelArgsCbData.length then
      some ((CL_SUCCESS : Int),
        { st with m_KernelArgsCbData :=
            writeBytes st.m_KernelArgsCbData am.offset (bs.take am.size) })
      else none) = some (CL_SUCCESS,
        { st with m_KernelArgsCbData :=
            writeBytes st.m_KernelArgsCbData am.offset (bs.take am.size) })
    rw [if_pos ⟨hbs, hoff⟩]

/-- Witness for C9: on the concrete scalar kernel, size 5 is rejected,
size 4 with a null pointer is undefined, and size 4 with four bytes
copies them to offset 0. -/
theorem C9_setArg_scalar_unguarded_copy_witness :
    SetArg exKScalar exStScalar 0 5 none = some (CL_INVALID_ARG_SIZE, exStScalar) ∧
    SetArg exKScalar exStScalar 0 4 none = none ∧
    SetArg exKScalar exStScalar 0 4 (some (ArgValue.bytes [1, 2, 3, 4])) =
      some (CL_SUCCESS,
        { exStScalar with m_KernelArgsCbData := [1, 2, 3, 4, 0, 0, 0, 0] }) := by
  obtain ⟨h1, h2, h3⟩ := C9_setArg_scalar_unguarded_copy exKScalar exStScalar 0
    ⟨0, 4, ArgProperties.scalar⟩ infoScalar rfl rfl rfl (by decide)
  refine ⟨h1 5 none (by decide), h2, ?_⟩
  have h4 := h3 [1, 2, 3, 4] (by decide) (by decide)
  rw [h4]
  decide

/-- C10: the value reported for `CL_KERNEL_LOCAL_MEM_SIZE` equals the
metadata's base `local_mem_size` plus, for every Local-address-space
argument, its currently configured footprint minus 4 — each Local
argument's fixed 4-byte placeholder inside the base value is replaced by
the size set via SetArg (stated under the no-underflow/no-overflow side
conditions of the `size_t` arithmetic). -/
theorem C10_local_mem_size (k : Kernel) (st : KernelState) (v : Nat)
    (fs : List Nat)
    (h : getKernelLocalMemSize k st = some v)
    (hfs : localFootprints k st = some fs)
    (hbase : k.metadata.local_mem_size < 18446744073709551616)
    (hlow : 4 * fs.length ≤ k.metadata.local_mem_size + fs.sum)
    (hhigh : k.metadata.local_mem_size + fs.sum - 4 * fs.length <
      18446744073709551616) :
    v = k.metadata.local_mem_size + fs.sum - 4 * fs.length := by
  unfold getKernelLocalMemSize at h
  unfold localFootprints at hfs
  have h0 : u64m k.metadata.local_mem_size < 18446744073709551616 :=
    Nat.mod_lt _ (by omega)
  have hv := localMemFold_eq (localMemPairs k st) _ v h0 h
  have ht := footprintsOf_addTotal (localMemPairs k st) fs hfs
  rw [ht] at hv
  unfold u64m at hv
  rw [Nat.mod_eq_of_lt hbase] at hv
  omega

/-- Witness for C10: the concrete Local-argument kernel with base 4 and
footprint 8 reports 4 + 8 - 4 = 8. -/
theorem C10_local_mem_size_witness :
    getKernelLocalMemSize exKLocal exStLocal8 = some 8 ∧
    localFootprints exKLocal exStLocal8 = some [8] ∧
    (8 : Nat) = exKLocal.metadata.local_mem_size +
      List.sum [8] - 4 * List.length [8] := by
  have h1 : getKernelLocalMemSize exKLocal exStLocal8 = some 8 := by decide
  have h2 : localFootprints exKLocal exStLocal8 = some [8] := by decide
  exact ⟨h1, h2, C10_local_mem_size exKLocal exStLocal8 8 [8] h1 h2
    (by decide) (by decide) (by decide)⟩

/-- C4: a successful SetArg on a Global/Constant plain-buffer (non-image)
argument writes into the blob, at the argument's offset, the 64-bit
value whose upper 32 bits are the argument's UAV slot id and whose lower
32 bits are zero when a non-null resource is bound, and the all-ones
pattern (~0) when the bound handle is null. -/
theorem C4_setArg_buffer_packed_value (k : Kernel) (st : KernelState) (i : Nat)
    (am : ArgMeta) (ai : ArgInfo) (bid : Nat) (mem : Option Resource)
    (st2 : KernelState)
    (hm : k.metadata.args.get? i = some am)
    (hi : k.metadata.program_kernel_info_args.get? i = some ai)
    (haddr : ai.address_qualifier = AddressSpace.Global ∨
             ai.address_qualifier = AddressSpace.Constant)
    (hnimg : MemObjectTypeFromName ai.type_name = 0)
    (hprops : am.properties = ArgProperties.memory bid)
    (hbid : bid < 4294967296)
    (h : SetArg k st i sizeof_cl_mem (some (ArgValue.memVal mem)) =
      some (CL_SUCCESS, st2)) :
    readU64 st2.m_KernelArgsCbData am.offset =
      if mem.isSome then bid * 4294967296 else 18446744073709551615 := by
  rw [SetArg_reduce_global k st i sizeof_cl_mem (some (ArgValue.memVal mem))
    am ai hm hi haddr] at h
  cases mem with
  | none =>
    simp only [setArgGlobalConstant, hnimg, hprops, ne_eq, not_true_eq_false,
      Bool.false_eq_true, if_false, ite_false] at h
    split at h
    · rename_i hguard
      simp only [Option.some.injEq, Prod.mk.injEq] at h
      rw [← h.2]
      have hread := readU64_writeBytes st.m_KernelArgsCbData am.offset
        18446744073709551615 hguard.2 (by omega)
      simpa using hread
    · exact Option.noConfusion h
  | some r =>
    simp only [setArgGlobalConstant, hnimg, hprops, ne_eq, not_true_eq_false,
      if_false, ite_false] at h
    split at h
    · simp only [Option.some.injEq, Prod.mk.injEq] at h
      exact absurd h.1 (by decide)
    · split at h
      · rename_i hguard
        simp only [Option.some.injEq, Prod.mk.injEq] at h
        rw [← h.2]
        have hu : u32 bid = bid := Nat.mod_eq_of_lt hbid
        have hread := readU64_writeBytes st.m_KernelArgsCbData am.offset
          (u32 bid * 4294967296) hguard.2 (by rw [hu]; omega)
        show readU64 (writeBytes st.m_KernelArgsCbData am.offset
          (u64Bytes (u32 bid * 4294967296))) am.offset = bid * 4294967296
        rw [hread, hu]
      · exact Option.noConfusion h

/-- Witness for C4: binding the concrete buffer resource to the plain
buffer argument on UAV slot 3 writes the packed value 3 <<< 32 into the
blob at offset 0. -/
theorem C4_setArg_buffer_packed_value_witness :
    SetArg exKMem exStMem 0 8 (some (ArgValue.memVal (some exResBuf))) =
      some (CL_SUCCESS, exStMemAfter) ∧
    readU64 exStMemAfter.m_KernelArgsCbData 0 = 3 * 4294967296 := by
  have h1 : SetArg exKMem exStMem 0 8 (some (ArgValue.memVal (some exResBuf))) =
      some (CL_SUCCESS, exStMemAfter) := by decide
  have h2 := C4_setArg_buffer_packed_value exKMem exStMem 0
    ⟨0, 8, ArgProperties.memory 3⟩
    { infoScalar with type_name := "int*",
                      address_qualifier := AddressSpace.Global }
    3 (some exResBuf) exStMemAfter (by decide) (by decide)
    (Or.inl (by decide)) (by decide) (by decide) (by decide) h1
  exact ⟨h1, h2⟩

/-- C5: binding a non-null resource of the matching image kind to an
image-typed Global/Constant argument fails with `CL_INVALID_ARG_VALUE`
and leaves the state (in particular that argument's previous binding)
unchanged when: the argument is writable and the resource is flagged
read-only; the argument is writable and readable and the resource is
flagged write-only; or the argument is read-only (not writable) and the
resource is flagged write-only. -/
theorem C5_setArg_image_flag_failures (k : Kernel) (st : KernelState) (i : Nat)
    (am : ArgMeta) (ai : ArgInfo) (ids : List Nat) (r : Resource)
    (hm : k.metadata.args.get? i = some am)
    (hi : k.metadata.program_kernel_info_args.get? i = some ai)
    (haddr : ai.address_qualifier = AddressSpace.Global ∨
             ai.address_qualifier = AddressSpace.Constant)
    (himg : MemObjectTypeFromName ai.type_name ≠ 0)
    (hprops : am.properties = ArgProperties.image ids)
    (htype : r.image_type = MemObjectTypeFromName ai.type_name) :
    (ai.writable = true → Nat.land r.flags CL_MEM_READ_ONLY ≠ 0 →
      SetArg k st i sizeof_cl_mem (some (ArgValue.memVal (some r))) =
        some (CL_INVALID_ARG_VALUE, st)) ∧
    (ai.writable = true → ai.readable = true →
      Nat.land r.flags CL_MEM_WRITE_ONLY ≠ 0 →
      SetArg k st i sizeof_cl_mem (some (ArgValue.memVal (some r))) =
        some (CL_INVALID_ARG_VALUE, st)) ∧
    (ai.writable = false → Nat.land r.flags CL_MEM_WRITE_ONLY ≠ 0 →
      SetArg k st i sizeof_cl_mem (some (ArgValue.memVal (some r))) =
        some (CL_INVALID_ARG_VALUE, st)) := by
  refine ⟨?_, ?_, ?_⟩
  · intro hw hro
    rw [SetArg_reduce_global k st i sizeof_cl_mem
      (some (ArgValue.memVal (some r))) am ai hm hi haddr]
    simp [setArgGlobalConstant, hprops, himg, htype, hw, hro, resourceHasFlag]
  · intro hw hrd hwo
    rw [SetArg_reduce_global k st i sizeof_cl_mem
      (some (ArgValue.memVal (some r))) am ai hm hi haddr]
    by_cases hro : Nat.land r.flags CL_MEM_READ_ONLY ≠ 0
    · simp [setArgGlobalConstant, hprops, himg, htype, hw, hro, resourceHasFlag]
    · simp [setArgGlobalConstant, hprops, himg, htype, hw, hrd, hwo, hro,
        resourceHasFlag]
  · intro hw hwo
    rw [SetArg_reduce_global k st i sizeof_cl_mem
      (some (ArgValue.memVal (some r))) am ai hm hi haddr]
    simp [setArgGlobalConstant, hprops, himg, htype, hw, hwo, resourceHasFlag]

/-- Witness for C5: binding the write-only-flagged image to the read-only
image argument of the concrete kernel fails with `CL_INVALID_ARG_VALUE`
and the state is unchanged. -/
theorem C5_setArg_image_flag_failures_witness :
    SetArg exKImg exStImg 0 8 (some (ArgValue.memVal (some exResWO))) =
      some (CL_INVALID_ARG_VALUE, exStImg) := by
  have h := (C5_setArg_image_flag_failures exKImg exStImg 0
    ⟨0, 8, ArgProperties.image [0]⟩
    { infoScalar with type_name := "image2d_t",
                      address_qualifier := AddressSpace.Global, readable := true }
    [0] exResWO (by decide) (by decide) (Or.inl (by decide)) (by decide)
    (by decide) (by decide)).2.2
  exact h (by decide) (by decide)

end OCL12
